import Mathlib

/-!
Shallow embedding of the serial-port registry and asynchronous transport
engine from `src/src/main/c/Windows/SerialPort_Windows.c` (jSerialComm).

Host (Win32) calls are modelled by explicit oracles recording, per call site,
whether the call succeeded and what value it produced; machine state touched
by those calls (device queue sizes, DCB line configuration, timeouts, event
mask) is threaded explicitly.  Line numbers recorded into the error contexts
are the literal `__LINE__` values computed from the source file.
-/

namespace JSerialComm

/-! ## Constants

Win32 header constants carry their standard Windows values.  The
`com_fazecast_jSerialComm_SerialPort_*` constants come from the generated JNI
header, which is not part of the repository; they are modelled from the spec's
lists of event flags, timeout modes and flow-control flags as distinct bits
(with the library's published values). -/

def MAXDWORD : Nat := 4294967295

def EV_RXCHAR : Nat := 0x0001
def EV_TXEMPTY : Nat := 0x0004
def EV_CTS : Nat := 0x0008
def EV_DSR : Nat := 0x0010
def EV_RLSD : Nat := 0x0020
def EV_BREAK : Nat := 0x0040
def EV_ERR : Nat := 0x0080
def EV_RING : Nat := 0x0100

def CE_RXOVER : Nat := 0x0001
def CE_OVERRUN : Nat := 0x0002
def CE_RXPARITY : Nat := 0x0004
def CE_FRAME : Nat := 0x0008
def CE_BREAK : Nat := 0x0010

def MS_CTS_ON : Nat := 0x0010
def MS_DSR_ON : Nat := 0x0020
def MS_RING_ON : Nat := 0x0040
def MS_RLSD_ON : Nat := 0x0080

def RTS_CONTROL_DISABLE : Nat := 0
def RTS_CONTROL_ENABLE : Nat := 1
def RTS_CONTROL_HANDSHAKE : Nat := 2
def RTS_CONTROL_TOGGLE : Nat := 3

def DTR_CONTROL_DISABLE : Nat := 0
def DTR_CONTROL_ENABLE : Nat := 1
def DTR_CONTROL_HANDSHAKE : Nat := 2

def ONESTOPBIT : Nat := 0
def ONE5STOPBITS : Nat := 1
def TWOSTOPBITS : Nat := 2

def NOPARITY : Nat := 0
def ODDPARITY : Nat := 1
def EVENPARITY : Nat := 2
def MARKPARITY : Nat := 3
def SPACEPARITY : Nat := 4

/-- Modelled from the spec: monitored-event flag bits of the JNI interface
(the generated header `com_fazecast_jSerialComm_SerialPort.h` is not in the
repository). -/
def LISTENING_EVENT_TIMED_OUT : Nat := 0x0000
def LISTENING_EVENT_DATA_AVAILABLE : Nat := 0x0001
def LISTENING_EVENT_DATA_RECEIVED : Nat := 0x0002
def LISTENING_EVENT_DATA_WRITTEN : Nat := 0x0004
def LISTENING_EVENT_BREAK_INTERRUPT : Nat := 0x0010
def LISTENING_EVENT_CARRIER_DETECT : Nat := 0x0020
def LISTENING_EVENT_CTS : Nat := 0x0040
def LISTENING_EVENT_DSR : Nat := 0x0080
def LISTENING_EVENT_RING_INDICATOR : Nat := 0x0100
def LISTENING_EVENT_FRAMING_ERROR : Nat := 0x0200
def LISTENING_EVENT_FIRMWARE_OVERRUN_ERROR : Nat := 0x0400
def LISTENING_EVENT_PARITY_ERROR : Nat := 0x0800
def LISTENING_EVENT_SOFTWARE_OVERRUN_ERROR : Nat := 0x1000
def LISTENING_EVENT_PORT_DISCONNECTED : Nat := 0x10000000

/-- Modelled from the spec: timeout-mode bits of the JNI interface. -/
def TIMEOUT_NONBLOCKING : Nat := 0x0000
def TIMEOUT_READ_SEMI_BLOCKING : Nat := 0x0001
def TIMEOUT_READ_BLOCKING : Nat := 0x0010
def TIMEOUT_WRITE_BLOCKING : Nat := 0x0100
def TIMEOUT_SCANNER : Nat := 0x1000

/-- Modelled from the spec: flow-control flag bits of the JNI interface. -/
def FLOW_CONTROL_DISABLED : Nat := 0x00000000
def FLOW_CONTROL_RTS_ENABLED : Nat := 0x00000001
def FLOW_CONTROL_CTS_ENABLED : Nat := 0x00000010
def FLOW_CONTROL_DSR_ENABLED : Nat := 0x00000100
def FLOW_CONTROL_DTR_ENABLED : Nat := 0x00001000
def FLOW_CONTROL_XONXOFF_IN_ENABLED : Nat := 0x00010000
def FLOW_CONTROL_XONXOFF_OUT_ENABLED : Nat := 0x00100000

/-! ## Data model -/

/-- A Win32 `HANDLE` as used by the source: either the sentinel
`INVALID_HANDLE_VALUE` or a live OS handle. -/
inductive WinHandle where
  | invalid
  | live (id : Nat)
deriving DecidableEq, Repr

/-- The `serialPort` record (declared in the missing helper header
`WindowsHelperFunctions.h`; fields are exactly those the source file uses).
`readBuffer` contents are not modelled, only its capacity
`readBufferLength`. -/
structure serialPort where
  portPath : String
  friendlyName : String
  portDescription : String
  portLocation : String
  serialNumber : String
  handle : WinHandle
  enumerated : Bool
  eventListenerRunning : Bool
  readBufferLength : Nat
  errorLineNumber : Int
  errorNumber : Int
deriving DecidableEq, Repr

/-- The process-wide last-error context (`lastErrorLineNumber`,
`lastErrorNumber` globals of the source file). -/
structure Globals where
  lastErrorLineNumber : Int
  lastErrorNumber : Int
deriving DecidableEq, Repr

/-! ## Registry helper operations

Modelled from the spec: `fetchPort`, `pushBack` and `removePort` live in the
missing helper file `WindowsHelperFunctions.c`.  The spec describes the
registry as an ordered sequence of records keyed by stable path identity with
lookup, create-and-append and removal; a record created by the
create-and-append operation during a discovery pass counts as present
(`enumerated`) so that the sweep of the same pass does not remove it. -/

/-- Update the first list element satisfying `p` by `f`, leaving the rest
unchanged (in-place update of the record `fetchPort` would return). -/
def updateFirst (p : serialPort → Bool) (f : serialPort → serialPort) :
    List serialPort → List serialPort
  | [] => []
  | x :: xs => if p x then f x :: xs else x :: updateFirst p f xs

/-- Modelled from the spec: the fresh record built by `pushBack`
(create-and-append): closed handle, empty read buffer, no error, counted as
present for the current discovery pass. -/
def pushBackRecord (path name desc loc : String) : serialPort :=
  { portPath := path
    friendlyName := name
    portDescription := desc
    portLocation := loc
    serialNumber := ""
    handle := WinHandle.invalid
    enumerated := true
    eventListenerRunning := false
    readBufferLength := 0
    errorLineNumber := 0
    errorNumber := 0 }

/-- Is `pat` an initial segment of `l`? -/
def listHasPre : List Char → List Char → Bool
  | [], _ => true
  | _ :: _, [] => false
  | p :: ps, c :: cs => decide (p = c) && listHasPre ps cs

/-- Does `pat` occur as a contiguous segment of `l`? -/
def listHasSub (pat : List Char) : List Char → Bool
  | [] => listHasPre pat []
  | c :: cs => listHasPre pat (c :: cs) || listHasSub pat cs

/-- Does `pat` occur as a substring of `s` (model of `wcsstr`)? -/
def containsSub (s pat : String) : Bool := listHasSub pat.data s.data

/-! ## Device discovery (`enumeratePorts`)

One device reported by the setup-class enumeration (lines 128-251).  The
registry-property queries are modelled by the already-extracted values: a
missing port-name registry value is `portName = none`, a missing friendly-name
property is `friendlyName = none`, a missing bus-reported description is
`busReportedDescription = none`, and the bus/address/location-info queries
(with the heuristic `Hub#N` / `Port#N` token parse of lines 187-217) produce
`busNumber` / `hubNumber` / `portNumber`, `none` when unresolved. -/
structure HostDevice where
  portName : Option String
  friendlyName : Option String
  busReportedDescription : Option String
  busNumber : Option Nat
  hubNumber : Option Nat
  portNumber : Option Nat
deriving DecidableEq, Repr

/-- Location-string derivation of lines 218-225: default every unresolved
component to 0 and format with `L"%d-%d.%d"`. -/
def deriveLocation (bus hub port : Option Nat) : String :=
  toString (bus.getD 0) ++ "-" ++ toString (hub.getD 0) ++ "." ++ toString (port.getD 0)

/-- One iteration of the device loop of lines 128-251: skip devices without a
port name or whose name contains `LPT`; derive friendly name, description and
location with their fallback chains; then reconcile with the registry
(lines 227-244): mark an existing record enumerated and refresh its location,
or append a fresh record. -/
def processSetupDevice (st : List serialPort) (d : HostDevice) : List serialPort :=
  match d.portName with
  | none => st
  | some comPortString =>
    if containsSub comPortString "LPT" then st
    else
      let friendlyNameString := d.friendlyName.getD comPortString
      let portDescriptionString := d.busReportedDescription.getD friendlyNameString
      let locationString := deriveLocation d.busNumber d.hubNumber d.portNumber
      if st.any (fun q => decide (q.portPath = comPortString)) then
        updateFirst (fun q => decide (q.portPath = comPortString))
          (fun q => { q with enumerated := true, portLocation := locationString }) st
      else
        st ++ [pushBackRecord comPortString friendlyNameString portDescriptionString locationString]

/-- One FTDI device-info node of the supplementary pass (lines 256-309).
`resolvedPath` models the result of the missing helper
`getPortPathFromSerial` (`none` when resolution fails); `reallocOk` models
whether the description-buffer reallocation of line 293 succeeds. -/
structure FtdiDevice where
  flagsOpened : Bool
  serialNumber : String
  description : String
  resolvedPath : Option String
  reallocOk : Bool
deriving DecidableEq, Repr

/-- Lines 273-281: when the FTDI device is not counted as open, a
serial-number match against a registry record with a live handle marks that
record enumerated (and counts the device as open). -/
def ftdiMarkBySerial (d : FtdiDevice) (st : List serialPort) : List serialPort :=
  if !(d.flagsOpened || decide (d.serialNumber = "")) &&
      st.any (fun q =>
        decide (q.serialNumber = d.serialNumber) && decide (q.handle ≠ WinHandle.invalid)) then
    updateFirst
      (fun q => decide (q.serialNumber = d.serialNumber) && decide (q.handle ≠ WinHandle.invalid))
      (fun q => { q with enumerated := true }) st
  else st

/-- Lines 284-302: when the FTDI device's path resolves, the first registry
record with that path is marked enumerated and patched with the richer
description (when its reallocation succeeds) and serial number, provided the
FTDI description is non-empty. -/
def ftdiPatchByPath (d : FtdiDevice) (st : List serialPort) : List serialPort :=
  match d.resolvedPath with
  | none => st
  | some comPort =>
    updateFirst (fun q => decide (q.portPath = comPort) && decide (d.description ≠ ""))
      (fun q =>
        { q with enumerated := true
                 portDescription := if d.reallocOk then d.description else q.portDescription
                 serialNumber := d.serialNumber }) st

/-- One iteration of the FTDI loop of lines 270-303: a device counted as open
(opened flag, empty serial number, or a serial-number match, which also marks
the matched record enumerated) skips the path-based patch pass; otherwise the
patch pass runs on the (unchanged, since no serial match fired) registry. -/
def processFtdiDevice (st : List serialPort) (d : FtdiDevice) : List serialPort :=
  let isOpen0 := d.flagsOpened || decide (d.serialNumber = "")
  let serialHit := !isOpen0 &&
    st.any (fun q =>
      decide (q.serialNumber = d.serialNumber) && decide (q.handle ≠ WinHandle.invalid))
  if isOpen0 || serialHit then ftdiMarkBySerial d st
  else ftdiPatchByPath d (ftdiMarkBySerial d st)

/-- The host's view during one discovery pass: the concatenation of the five
setup-class device lists, and the FTDI device-info list when `ftd2xx.dll` is
loadable and its info-list calls succeed (`none` otherwise). -/
structure HostSnapshot where
  devices : List HostDevice
  ftdi : Option (List FtdiDevice)
deriving DecidableEq, Repr

/-- The full discovery pass `enumeratePorts` (lines 103-319): mark phase
(line 106-107: `enumerated` := handle is live), setup-class reconcile loop,
supplementary FTDI pass, and the sweep of lines 311-317 removing every record
still unmarked. -/
def enumeratePorts (host : HostSnapshot) (st : List serialPort) : List serialPort :=
  let marked := st.map fun q => { q with enumerated := decide (q.handle ≠ WinHandle.invalid) }
  let st1 := host.devices.foldl processSetupDevice marked
  let st2 :=
    match host.ftdi with
    | some ds => ds.foldl processFtdiDevice st1
    | none => st1
  st2.filter (·.enumerated)

/-! ## Host transport state -/

/-- The Win32 `COMMTIMEOUTS` descriptor (fields the source writes). -/
structure COMMTIMEOUTS where
  ReadIntervalTimeout : Nat
  ReadTotalTimeoutMultiplier : Nat
  ReadTotalTimeoutConstant : Nat
  WriteTotalTimeoutMultiplier : Nat
  WriteTotalTimeoutConstant : Nat
deriving DecidableEq, Repr

/-- The Win32 `DCB` line configuration: the fields `configPort` writes, plus
`rest`, standing for all remaining fields, which `GetCommState` reads from the
device and `SetCommState` writes back unchanged. -/
structure DCB where
  BaudRate : Nat
  ByteSize : Nat
  StopBits : Nat
  Parity : Nat
  fParity : Bool
  fBinary : Bool
  fAbortOnError : Bool
  fRtsControl : Nat
  fOutxCtsFlow : Bool
  fOutxDsrFlow : Bool
  fDtrControl : Nat
  fDsrSensitivity : Bool
  fOutX : Bool
  fInX : Bool
  fTXContinueOnXoff : Bool
  fErrorChar : Bool
  fNull : Bool
  XonLim : Nat
  XoffLim : Nat
  XonChar : Int
  XoffChar : Int
  rest : Nat
deriving DecidableEq, Repr

/-- Device-side transport state touched by the host calls `SetupComm`,
`SetCommState`, `SetCommTimeouts` and `SetCommMask`. -/
structure DeviceState where
  rxQueueSize : Nat
  txQueueSize : Nat
  dcb : DCB
  timeouts : COMMTIMEOUTS
  commMask : Nat
deriving DecidableEq, Repr

/-- The Java-side port parameter fields `configPort` reads (lines 524-557). -/
structure PortParams where
  baudRate : Nat
  dataBits : Nat
  stopBitsInt : Nat
  parityInt : Nat
  flowControl : Nat
  timeoutMode : Nat
  readTimeout : Nat
  writeTimeout : Nat
  eventsToMonitor : Nat
  xonStartChar : Int
  xoffStopChar : Int
  sendDeviceQueueSize : Nat
  receiveDeviceQueueSize : Nat
  rs485ModeEnabled : Bool
  isDtrEnabled : Bool
  isRtsEnabled : Bool
deriving DecidableEq, Repr

/-- Modelled from the spec: stop-bit mode selectors of the JNI interface. -/
def ONE_STOP_BIT : Nat := 1
def ONE_POINT_FIVE_STOP_BITS : Nat := 2
def TWO_STOP_BITS : Nat := 3

/-- Modelled from the spec: parity mode selectors of the JNI interface. -/
def NO_PARITY : Nat := 0
def ODD_PARITY : Nat := 1
def EVEN_PARITY : Nat := 2
def MARK_PARITY : Nat := 3
def SPACE_PARITY : Nat := 4

/-! ## `configPort` derived values (lines 558-569) -/

def stopBitsFor (stopBitsInt : Nat) : Nat :=
  if stopBitsInt = ONE_STOP_BIT then ONESTOPBIT
  else if stopBitsInt = ONE_POINT_FIVE_STOP_BITS then ONE5STOPBITS
  else TWOSTOPBITS

def parityFor (parityInt : Nat) : Nat :=
  if parityInt = NO_PARITY then NOPARITY
  else if parityInt = ODD_PARITY then ODDPARITY
  else if parityInt = EVEN_PARITY then EVENPARITY
  else if parityInt = MARK_PARITY then MARKPARITY
  else SPACEPARITY

def CTSEnabledFor (flowControl : Nat) : Bool :=
  decide (flowControl &&& FLOW_CONTROL_CTS_ENABLED > 0) ||
    decide (flowControl &&& FLOW_CONTROL_RTS_ENABLED > 0)

def DSREnabledFor (flowControl : Nat) : Bool :=
  decide (flowControl &&& FLOW_CONTROL_DSR_ENABLED > 0) ||
    decide (flowControl &&& FLOW_CONTROL_DTR_ENABLED > 0)

def DTRValueFor (flowControl : Nat) (isDtrEnabled : Bool) : Nat :=
  if flowControl &&& FLOW_CONTROL_DTR_ENABLED > 0 then DTR_CONTROL_HANDSHAKE
  else if isDtrEnabled then DTR_CONTROL_ENABLE else DTR_CONTROL_DISABLE

/-- The RTS line-state derivation of lines 566-567. -/
def RTSValueFor (rs485ModeEnabled : Bool) (flowControl : Nat) (isRtsEnabled : Bool) : Nat :=
  if rs485ModeEnabled then RTS_CONTROL_TOGGLE
  else if flowControl &&& FLOW_CONTROL_RTS_ENABLED > 0 then RTS_CONTROL_HANDSHAKE
  else if isRtsEnabled then RTS_CONTROL_ENABLE else RTS_CONTROL_DISABLE

/-- Lines 582-603: the updated `DCB`, starting from the device configuration
`GetCommState` returned and overwriting the listed fields. -/
def buildDCB (old : DCB) (p : PortParams) : DCB :=
  { old with
    BaudRate := p.baudRate
    ByteSize := p.dataBits
    StopBits := stopBitsFor p.stopBitsInt
    Parity := parityFor p.parityInt
    fParity := decide (p.parityInt ≠ NO_PARITY)
    fBinary := true
    fAbortOnError := false
    fRtsControl := RTSValueFor p.rs485ModeEnabled p.flowControl p.isRtsEnabled
    fOutxCtsFlow := CTSEnabledFor p.flowControl
    fOutxDsrFlow := DSREnabledFor p.flowControl
    fDtrControl := DTRValueFor p.flowControl p.isDtrEnabled
    fDsrSensitivity := DSREnabledFor p.flowControl
    fOutX := decide (p.flowControl &&& FLOW_CONTROL_XONXOFF_OUT_ENABLED > 0)
    fInX := decide (p.flowControl &&& FLOW_CONTROL_XONXOFF_IN_ENABLED > 0)
    fTXContinueOnXoff := true
    fErrorChar := false
    fNull := false
    XonLim := 2048
    XoffLim := 512
    XonChar := p.xonStartChar
    XoffChar := p.xoffStopChar }

/-! ## `configTimeouts` (lines 615-684) -/

/-- The composite host event mask of lines 617-633: the caller's requested
event flags translated to `EV_*` bits, always including `EV_ERR`. -/
def eventFlagsFor (eventsToMonitor : Nat) : Nat :=
  let f0 := EV_ERR
  let f1 := if eventsToMonitor &&& LISTENING_EVENT_DATA_AVAILABLE ≠ 0 ∨
               eventsToMonitor &&& LISTENING_EVENT_DATA_RECEIVED ≠ 0 then f0 ||| EV_RXCHAR else f0
  let f2 := if eventsToMonitor &&& LISTENING_EVENT_DATA_WRITTEN ≠ 0 then f1 ||| EV_TXEMPTY else f1
  let f3 := if eventsToMonitor &&& LISTENING_EVENT_BREAK_INTERRUPT ≠ 0 then f2 ||| EV_BREAK else f2
  let f4 := if eventsToMonitor &&& LISTENING_EVENT_CTS ≠ 0 then f3 ||| EV_CTS else f3
  let f5 := if eventsToMonitor &&& LISTENING_EVENT_DSR ≠ 0 then f4 ||| EV_DSR else f4
  let f6 := if eventsToMonitor &&& LISTENING_EVENT_RING_INDICATOR ≠ 0 then f5 ||| EV_RING else f5
  if eventsToMonitor &&& LISTENING_EVENT_CARRIER_DETECT ≠ 0 then f6 ||| EV_RLSD else f6

/-- The host timeout descriptor built by lines 635-674, as a function of the
timeout mode, the caller's read/write timeouts and the monitored-event set. -/
def timeoutsFor (timeoutMode readTimeout writeTimeout eventsToMonitor : Nat) : COMMTIMEOUTS :=
  if eventsToMonitor &&& LISTENING_EVENT_DATA_RECEIVED ≠ 0 then
    { ReadIntervalTimeout := MAXDWORD
      ReadTotalTimeoutMultiplier := MAXDWORD
      ReadTotalTimeoutConstant := 1000
      WriteTotalTimeoutMultiplier := 0
      WriteTotalTimeoutConstant := 0 }
  else if timeoutMode &&& TIMEOUT_SCANNER ≠ 0 then
    { ReadIntervalTimeout := MAXDWORD
      ReadTotalTimeoutMultiplier := MAXDWORD
      ReadTotalTimeoutConstant := 0x0FFFFFFF
      WriteTotalTimeoutMultiplier := 0
      WriteTotalTimeoutConstant := writeTimeout }
  else if timeoutMode &&& TIMEOUT_READ_SEMI_BLOCKING ≠ 0 then
    { ReadIntervalTimeout := MAXDWORD
      ReadTotalTimeoutMultiplier := MAXDWORD
      ReadTotalTimeoutConstant := if readTimeout ≠ 0 then readTimeout else 0x0FFFFFFF
      WriteTotalTimeoutMultiplier := 0
      WriteTotalTimeoutConstant := writeTimeout }
  else if timeoutMode &&& TIMEOUT_READ_BLOCKING ≠ 0 then
    { ReadIntervalTimeout := 0
      ReadTotalTimeoutMultiplier := 0
      ReadTotalTimeoutConstant := readTimeout
      WriteTotalTimeoutMultiplier := 0
      WriteTotalTimeoutConstant := writeTimeout }
  else
    { ReadIntervalTimeout := MAXDWORD
      ReadTotalTimeoutMultiplier := 0
      ReadTotalTimeoutConstant := 0
      WriteTotalTimeoutMultiplier := 0
      WriteTotalTimeoutConstant := writeTimeout }

/-- Record a failure into a port's error context. -/
def recErrPort (l e : Int) (q : serialPort) : serialPort :=
  { q with errorLineNumber := l, errorNumber := e }

/-- Record a failure into the process-wide error context. -/
def recErrGlobal (l e : Int) (_ : Globals) : Globals :=
  { lastErrorLineNumber := l, lastErrorNumber := e }

/-- Outcomes of the host calls issued by `configTimeouts`; `err` is the
`GetLastError` value observed when a call fails. -/
structure TimeoutOracle where
  setCommTimeoutsOk : Bool
  setCommMaskOk : Bool
  err : Int
deriving DecidableEq, Repr

/-- The native entry point `Java_com_fazecast_jSerialComm_SerialPort_configTimeouts`
(lines 615-684): build the timeout descriptor and event mask, then apply them
with `SetCommTimeouts` and `SetCommMask` (short-circuit: the mask call is
reached only when the timeout call succeeded); on failure record
(line 677, `GetLastError`) in both error contexts and return `JNI_FALSE`. -/
def configTimeouts (o : TimeoutOracle) (timeoutMode readTimeout writeTimeout eventsToMonitor : Nat)
    (dev : DeviceState) (q : serialPort) (g : Globals) :
    Bool × DeviceState × serialPort × Globals :=
  let t := timeoutsFor timeoutMode readTimeout writeTimeout eventsToMonitor
  let ef := eventFlagsFor eventsToMonitor
  if o.setCommTimeoutsOk then
    if o.setCommMaskOk then
      (true, { dev with timeouts := t, commMask := ef }, q, g)
    else
      (false, { dev with timeouts := t }, recErrPort 677 o.err q, recErrGlobal 677 o.err g)
  else
    (false, dev, recErrPort 677 o.err q, recErrGlobal 677 o.err g)

/-- Outcomes of the host calls issued by `configPort`. -/
structure ConfigOracle where
  setupCommOk : Bool
  getCommStateOk : Bool
  setCommStateOk : Bool
  timeoutCalls : TimeoutOracle
  err : Int
deriving DecidableEq, Repr

/-- The native entry point `Java_com_fazecast_jSerialComm_SerialPort_configPort` (lines 522-613):
`SetupComm` applies the device queue sizes, `GetCommState` reads the current
line configuration (short-circuit: only reached when `SetupComm` succeeded),
`SetCommState` applies the rebuilt `DCB`, and on success the function tail
calls `configTimeouts`.  Each failure records (line, `GetLastError`) in the
port's and the process-wide error contexts and returns `JNI_FALSE`. -/
def configPort (o : ConfigOracle) (p : PortParams) (dev : DeviceState) (q : serialPort)
    (g : Globals) : Bool × DeviceState × serialPort × Globals :=
  if o.setupCommOk then
    let dev1 := { dev with rxQueueSize := p.receiveDeviceQueueSize
                           txQueueSize := p.sendDeviceQueueSize }
    if o.getCommStateOk then
      let newDcb := buildDCB dev1.dcb p
      if o.setCommStateOk then
        configTimeouts o.timeoutCalls p.timeoutMode p.readTimeout p.writeTimeout
          p.eventsToMonitor { dev1 with dcb := newDcb } q g
      else
        (false, dev1, recErrPort 606 o.err q, recErrGlobal 606 o.err g)
    else
      (false, dev1, recErrPort 575 o.err q, recErrGlobal 575 o.err g)
  else
    (false, dev, recErrPort 575 o.err q, recErrGlobal 575 o.err g)

/-! ## `closePortNative` (lines 777-802) -/

/-- Outcomes of the host calls issued during close teardown. -/
structure CloseOracle where
  setCommTimeoutsOk : Bool
  setCommMaskOk : Bool
  closeHandleOk : Bool
  err : Int
deriving DecidableEq, Repr

/-- The non-blocking timeout descriptor forced at the start of close
(lines 780-787). -/
def closeTimeouts : COMMTIMEOUTS :=
  { ReadIntervalTimeout := MAXDWORD
    ReadTotalTimeoutMultiplier := 0
    ReadTotalTimeoutConstant := 0
    WriteTotalTimeoutMultiplier := 0
    WriteTotalTimeoutConstant := 0 }

/-- The native entry point `Java_com_fazecast_jSerialComm_SerialPort_closePortNative`
(lines 777-802): force non-blocking timeouts (result ignored), purge, cancel
pending I/O, flush, clear the event mask, clear the listener-running flag,
record (line 799, `CloseHandle` error or 0) in both error contexts, reset the
handle to the invalid sentinel, and return 0. -/
def closePortNative (o : CloseOracle) (dev : DeviceState) (q : serialPort) (_g : Globals) :
    DeviceState × serialPort × Globals × Int :=
  let dev1 := if o.setCommTimeoutsOk then { dev with timeouts := closeTimeouts } else dev
  let dev2 := if o.setCommMaskOk then { dev1 with commMask := 0 } else dev1
  let e : Int := if o.closeHandleOk then 0 else o.err
  let q1 := { q with eventListenerRunning := false
                     errorLineNumber := 799
                     errorNumber := e
                     handle := WinHandle.invalid }
  (dev2, q1, { lastErrorLineNumber := 799, lastErrorNumber := e }, 0)

/-! ## `flushRxTxBuffers` (lines 686-696) -/

/-- The native entry point `Java_com_fazecast_jSerialComm_SerialPort_flushRxTxBuffers`: purge the
device queues; on failure record (line 689, `GetLastError`) in the port's
error context only. -/
def flushRxTxBuffers (purgeCommOk : Bool) (err : Int) (q : serialPort) : serialPort × Bool :=
  if purgeCommOk then (q, true) else (recErrPort 689 err q, false)

/-! ## `readBytes` (lines 834-882) -/

/-- Outcomes of the host calls issued by `readBytes`: the buffer
reallocation (with `errno` on failure), `CreateEvent`, `ReadFile` (`pending`
is true when a FALSE return carries `ERROR_IO_PENDING`), and
`GetOverlappedResult` delivering `numBytesRead`. -/
structure ReadOracle where
  reallocOk : Bool
  errnoVal : Int
  createEventOk : Bool
  readFileOk : Bool
  pending : Bool
  overlappedOk : Bool
  numBytesRead : Nat
  err : Int
deriving DecidableEq, Repr

/-- The asynchronous transfer of lines 851-882, after the buffer-growth
prologue: `CreateEvent` failure records (854, err); a FALSE `ReadFile` without
`ERROR_IO_PENDING` records (866, err); a FALSE `GetOverlappedResult` records
(871, err); each failure returns -1, success returns the transferred count. -/
def readBytesTransfer (o : ReadOracle) (q : serialPort) : serialPort × Int :=
  if o.createEventOk then
    if !o.readFileOk && !o.pending then (recErrPort 866 o.err q, -1)
    else if o.overlappedOk then (q, Int.ofNat o.numBytesRead)
    else (recErrPort 871 o.err q, -1)
  else (recErrPort 854 o.err q, -1)

/-- The native entry point `Java_com_fazecast_jSerialComm_SerialPort_readBytes` (lines 834-882):
when `bytesToRead` exceeds the owned buffer capacity, the error location is
set to the realloc line (841) and the buffer is reallocated to exactly
`bytesToRead` — on allocation failure `errno` is recorded and -1 returned;
then the asynchronous transfer runs. -/
def readBytes (o : ReadOracle) (q : serialPort) (bytesToRead : Nat) : serialPort × Int :=
  if bytesToRead > q.readBufferLength then
    if o.reallocOk then
      readBytesTransfer o
        { q with errorLineNumber := 841, readBufferLength := bytesToRead }
    else
      ({ q with errorLineNumber := 841, errorNumber := o.errnoVal }, -1)
  else
    readBytesTransfer o q

/-! ## `openPortNative` (lines 461-520) -/

/-- Java-side open options and outcomes of the host calls issued by open.
`disableConfig` and `autoFlushIOBuffers` are the Java object fields read at
lines 470-473; `createFileOk` / `newHandle` model `CreateFileW`. -/
structure OpenOracle where
  disableConfig : Bool
  autoFlushIOBuffers : Bool
  createFileOk : Bool
  newHandle : Nat
  configCalls : ConfigOracle
  purgeCommOk : Bool
  flushErr : Int
  err : Int
deriving DecidableEq, Repr

/-- The record `openPortNative` pushes for a user-specified path not in the
registry (line 480). -/
def userSpecifiedPort (portName : String) : serialPort :=
  pushBackRecord portName "User-Specified Port" "User-Specified Port" "0-0"

/-- Lines 495-514: `CreateFileW` and, on success, the optional
auto-configuration (whose failure purges, cancels, clears the event mask,
closes the handle and resets it to the invalid sentinel) and optional
auto-flush; `CreateFileW` failure records (line 497, `GetLastError`) in both
error contexts.  The ignored-result teardown calls after a configuration
failure are modelled as applied. -/
def openAttempt (o : OpenOracle) (p : PortParams) (q : serialPort) (dev : DeviceState)
    (g : Globals) : serialPort × DeviceState × Globals :=
  if o.createFileOk then
    let q1 := { q with handle := WinHandle.live o.newHandle }
    if !o.disableConfig then
      match configPort o.configCalls p dev q1 g with
      | (ok, dev1, q2, g1) =>
        if ok then
          if o.autoFlushIOBuffers then
            ((flushRxTxBuffers o.purgeCommOk o.flushErr q2).1, dev1, g1)
          else (q2, dev1, g1)
        else
          ({ q2 with handle := WinHandle.invalid }, { dev1 with commMask := 0 }, g1)
    else if o.autoFlushIOBuffers then
      ((flushRxTxBuffers o.purgeCommOk o.flushErr q1).1, dev, g)
    else (q1, dev, g)
  else
    (recErrPort 497 o.err q, dev, recErrGlobal 497 o.err g)

/-- The native entry point `Java_com_fazecast_jSerialComm_SerialPort_openPortNative`
(lines 461-520): look up the registry record for the path, creating a
user-specified record when absent (`pushBack` allocation is modelled as
succeeding); when the record's handle is already live, record (line 483,
code 2) in the process-wide error context and return the failure sentinel 0
(modelled as `false`); otherwise run the open attempt and return whether the
resulting handle is live. -/
def openPortNative (o : OpenOracle) (p : PortParams) (portName : String)
    (st : List serialPort) (dev : DeviceState) (g : Globals) :
    List serialPort × DeviceState × Globals × Bool :=
  match st.find? (fun q => decide (q.portPath = portName)) with
  | some q =>
    if q.handle ≠ WinHandle.invalid then
      (st, dev, recErrGlobal 483 2 g, false)
    else
      let r := openAttempt o p q dev g
      (updateFirst (fun x => decide (x.portPath = portName)) (fun _ => r.1) st, r.2.1, r.2.2,
        decide (r.1.handle ≠ WinHandle.invalid))
  | none =>
    let r := openAttempt o p (userSpecifiedPort portName) dev g
    (st ++ [r.1], r.2.1, r.2.2, decide (r.1.handle ≠ WinHandle.invalid))

/-! ## `waitForEvent` (lines 698-775) -/

/-- Outcomes of the host calls issued by `waitForEvent`.  `pendingOrParam`
models a FALSE `WaitCommEvent` whose `GetLastError` is `ERROR_IO_PENDING` or
`ERROR_INVALID_PARAMETER`; `waitSignaled` models the bounded 500 ms wait loop
ending with `WAIT_OBJECT_0` (rather than being abandoned through the
listener-running flag); `junkPositive` is the comparison outcome of the
indeterminate stack value left in `commInfo.cbInQue` when `ClearCommError`
fails without writing it. -/
structure WaitOracle where
  createEventOk : Bool
  waitCommEventOk : Bool
  pendingOrParam : Bool
  waitSignaled : Bool
  overlappedOk : Bool
  eventMask : Nat
  clearCommOk : Bool
  errorMask : Nat
  cbInQue : Nat
  junkPositive : Bool
  ctsCallOk : Bool
  dsrCallOk : Bool
  ringCallOk : Bool
  rlsdCallOk : Bool
  modemStatus : Nat
  err : Int
deriving DecidableEq, Repr

/-- The error-flag translation of lines 743-752. -/
def errTranslate (errorMask : Nat) : Nat :=
  let e1 := if errorMask &&& CE_BREAK ≠ 0 then LISTENING_EVENT_BREAK_INTERRUPT else 0
  let e2 := if errorMask &&& CE_FRAME ≠ 0 then e1 ||| LISTENING_EVENT_FRAMING_ERROR else e1
  let e3 := if errorMask &&& CE_OVERRUN ≠ 0 then e2 ||| LISTENING_EVENT_FIRMWARE_OVERRUN_ERROR else e2
  let e4 := if errorMask &&& CE_RXOVER ≠ 0 then e3 ||| LISTENING_EVENT_SOFTWARE_OVERRUN_ERROR else e3
  if errorMask &&& CE_RXPARITY ≠ 0 then e4 ||| LISTENING_EVENT_PARITY_ERROR else e4

/-- The event parse of lines 739-770, reached once the wait completed.  The
`COMSTAT` structure of line 740 is declared without an initializer, so its
input-queue count is modelled as `Option Nat`: `some` only when
`ClearCommError` wrote it.  The returned triple is (updated port record,
event bits, whether the data-available qualification compared an unwritten
`cbInQue` value). -/
def waitParseEvents (o : WaitOracle) (q : serialPort) : serialPort × Nat × Bool :=
  let commInfoInQue : Option Nat := if o.clearCommOk then some o.cbInQue else none
  let errBits := if o.clearCommOk then errTranslate o.errorMask else 0
  let queuePositive := match commInfoInQue with
    | some n => decide (n > 0)
    | none => o.junkPositive
  let usedUndefined := decide (o.eventMask &&& EV_RXCHAR ≠ 0) && commInfoInQue.isNone
  let e0 := LISTENING_EVENT_TIMED_OUT ||| errBits
  let e1 := if o.eventMask &&& EV_BREAK ≠ 0 then e0 ||| LISTENING_EVENT_BREAK_INTERRUPT else e0
  let e2 := if o.eventMask &&& EV_TXEMPTY ≠ 0 then e1 ||| LISTENING_EVENT_DATA_WRITTEN else e1
  let e3 := if decide (o.eventMask &&& EV_RXCHAR ≠ 0) && queuePositive then
      e2 ||| LISTENING_EVENT_DATA_AVAILABLE else e2
  let e4 := if decide (o.eventMask &&& EV_CTS ≠ 0) && o.ctsCallOk &&
      decide (o.modemStatus &&& MS_CTS_ON ≠ 0) then e3 ||| LISTENING_EVENT_CTS else e3
  let e5 := if decide (o.eventMask &&& EV_DSR ≠ 0) && o.dsrCallOk &&
      decide (o.modemStatus &&& MS_DSR_ON ≠ 0) then e4 ||| LISTENING_EVENT_DSR else e4
  let e6 := if decide (o.eventMask &&& EV_RING ≠ 0) && o.ringCallOk &&
      decide (o.modemStatus &&& MS_RING_ON ≠ 0) then e5 ||| LISTENING_EVENT_RING_INDICATOR else e5
  let e7 := if decide (o.eventMask &&& EV_RLSD ≠ 0) && o.rlsdCallOk &&
      decide (o.modemStatus &&& MS_RLSD_ON ≠ 0) then e6 ||| LISTENING_EVENT_CARRIER_DETECT else e6
  (q, e7, usedUndefined)

/-- The native entry point `Java_com_fazecast_jSerialComm_SerialPort_waitForEvent` (lines 698-775):
`CreateEvent` failure records (704, err) and returns timed-out; a FALSE
`WaitCommEvent` with a pending/parameter condition enters the bounded wait
loop, whose abandonment or completion failure records (721, err) and returns
timed-out, while any other immediate error records (715, err) and returns a
disconnect event; otherwise the completed wait's event mask is parsed. -/
def waitForEvent (o : WaitOracle) (q : serialPort) : serialPort × Nat × Bool :=
  if ¬o.createEventOk then
    (recErrPort 704 o.err q, LISTENING_EVENT_TIMED_OUT, false)
  else if o.waitCommEventOk then
    waitParseEvents o q
  else if o.pendingOrParam then
    if o.waitSignaled ∧ o.overlappedOk then
      waitParseEvents o q
    else
      (recErrPort 721 o.err q, LISTENING_EVENT_TIMED_OUT, false)
  else
    (recErrPort 715 o.err q,
      LISTENING_EVENT_TIMED_OUT ||| LISTENING_EVENT_PORT_DISCONNECTED, false)

/-! ## Per-port operation machine

Wraps the modelled per-handle operations as steps on a combined state so
that frame properties of the error contexts can be stated uniformly. -/

structure EngineState where
  dev : DeviceState
  port : serialPort
  globals : Globals
deriving DecidableEq, Repr

inductive EngineOp where
  | cfgPort (o : ConfigOracle) (p : PortParams)
  | cfgTimeouts (o : TimeoutOracle) (timeoutMode readTimeout writeTimeout eventsToMonitor : Nat)
  | flushOp (purgeCommOk : Bool) (err : Int)
  | readOp (o : ReadOracle) (bytesToRead : Nat)
  | closeOp (o : CloseOracle)
deriving DecidableEq, Repr

/-- Run one operation, returning the new state and the success indicator the
caller observes (`JNI_TRUE`/`JNI_FALSE`, a non-negative byte count, or the
unconditional normal return of close). -/
def runOp : EngineOp → EngineState → EngineState × Bool
  | .cfgPort o p, s =>
    let r := configPort o p s.dev s.port s.globals
    (⟨r.2.1, r.2.2.1, r.2.2.2⟩, r.1)
  | .cfgTimeouts o m rt wt ev, s =>
    let r := configTimeouts o m rt wt ev s.dev s.port s.globals
    (⟨r.2.1, r.2.2.1, r.2.2.2⟩, r.1)
  | .flushOp ok e, s =>
    let r := flushRxTxBuffers ok e s.port
    (⟨s.dev, r.1, s.globals⟩, r.2)
  | .readOp o n, s =>
    let r := readBytes o s.port n
    (⟨s.dev, r.1, s.globals⟩, decide (0 ≤ r.2))
  | .closeOp o, s =>
    let r := closePortNative o s.dev s.port s.globals
    (⟨r.1, r.2.1, r.2.2.1⟩, true)

/-- Normalize the error contexts of a state (used to express that a failing
operation overwrites them: the recorded pair does not depend on what was
stored before). -/
def clearErrState (s : EngineState) : EngineState :=
  { s with port := { s.port with errorLineNumber := 0, errorNumber := 0 }
           globals := ⟨0, 0⟩ }

/-! ## Sample concrete values used by witnesses -/

def sampleDCB : DCB :=
  { BaudRate := 9600, ByteSize := 8, StopBits := 0, Parity := 0, fParity := false
    fBinary := true, fAbortOnError := false, fRtsControl := 0, fOutxCtsFlow := false
    fOutxDsrFlow := false, fDtrControl := 0, fDsrSensitivity := false, fOutX := false
    fInX := false, fTXContinueOnXoff := true, fErrorChar := false, fNull := false
    XonLim := 2048, XoffLim := 512, XonChar := 17, XoffChar := 19, rest := 42 }

def sampleDev : DeviceState :=
  { rxQueueSize := 16, txQueueSize := 16, dcb := sampleDCB
    timeouts := ⟨0, 0, 0, 0, 0⟩, commMask := 0 }

def sampleParams : PortParams :=
  { baudRate := 115200, dataBits := 8, stopBitsInt := 1, parityInt := 0, flowControl := 0
    timeoutMode := 0, readTimeout := 0, writeTimeout := 0, eventsToMonitor := 0
    xonStartChar := 17, xoffStopChar := 19, sendDeviceQueueSize := 4096
    receiveDeviceQueueSize := 4096, rs485ModeEnabled := false, isDtrEnabled := false
    isRtsEnabled := false }

def samplePort (path : String) (h : WinHandle) : serialPort :=
  { portPath := path, friendlyName := path, portDescription := path, portLocation := "0-0.0"
    serialNumber := "", handle := h, enumerated := false, eventListenerRunning := false
    readBufferLength := 0, errorLineNumber := 100, errorNumber := 55 }

/-! ## Claims -/

/-- C2: For every call to `configTimeouts`: if the monitored-event set
requests data-received, the read descriptor is interval-driven with a 1000 ms
total constant and the write timeout is 0, regardless of the timeout mode;
otherwise, scanner mode sets an effectively-infinite interval-driven read
total constant, semi-blocking mode an interval-driven read total constant
equal to the caller's read timeout (effectively infinite when zero), blocking
mode a fixed total read timeout equal to the caller's read timeout, and any
other mode immediate-return reads; in every mode except data-received the
write total timeout equals the caller's write timeout. -/
theorem configTimeouts_descriptor_spec
    (timeoutMode readTimeout writeTimeout eventsToMonitor : Nat) :
    (eventsToMonitor &&& LISTENING_EVENT_DATA_RECEIVED ≠ 0 →
      (timeoutsFor timeoutMode readTimeout writeTimeout eventsToMonitor).ReadIntervalTimeout
          = MAXDWORD ∧
      (timeoutsFor timeoutMode readTimeout writeTimeout eventsToMonitor).ReadTotalTimeoutMultiplier
          = MAXDWORD ∧
      (timeoutsFor timeoutMode readTimeout writeTimeout eventsToMonitor).ReadTotalTimeoutConstant
          = 1000 ∧
      (timeoutsFor timeoutMode readTimeout writeTimeout eventsToMonitor).WriteTotalTimeoutConstant
          = 0) ∧
    (eventsToMonitor &&& LISTENING_EVENT_DATA_RECEIVED = 0 →
      ((timeoutsFor timeoutMode readTimeout writeTimeout eventsToMonitor).WriteTotalTimeoutConstant
          = writeTimeout) ∧
      (timeoutMode &&& TIMEOUT_SCANNER ≠ 0 →
        (timeoutsFor timeoutMode readTimeout writeTimeout eventsToMonitor).ReadIntervalTimeout
            = MAXDWORD ∧
        (timeoutsFor timeoutMode readTimeout writeTimeout
            eventsToMonitor).ReadTotalTimeoutMultiplier = MAXDWORD ∧
        (timeoutsFor timeoutMode readTimeout writeTimeout eventsToMonitor).ReadTotalTimeoutConstant
            = 0x0FFFFFFF) ∧
      (timeoutMode &&& TIMEOUT_SCANNER = 0 → timeoutMode &&& TIMEOUT_READ_SEMI_BLOCKING ≠ 0 →
        (timeoutsFor timeoutMode readTimeout writeTimeout eventsToMonitor).ReadIntervalTimeout
            = MAXDWORD ∧
        (timeoutsFor timeoutMode readTimeout writeTimeout
            eventsToMonitor).ReadTotalTimeoutMultiplier = MAXDWORD ∧
        (timeoutsFor timeoutMode readTimeout writeTimeout eventsToMonitor).ReadTotalTimeoutConstant
            = (if readTimeout ≠ 0 then readTimeout else 0x0FFFFFFF)) ∧
      (timeoutMode &&& TIMEOUT_SCANNER = 0 → timeoutMode &&& TIMEOUT_READ_SEMI_BLOCKING = 0 →
       timeoutMode &&& TIMEOUT_READ_BLOCKING ≠ 0 →
        (timeoutsFor timeoutMode readTimeout writeTimeout eventsToMonitor).ReadIntervalTimeout
            = 0 ∧
        (timeoutsFor timeoutMode readTimeout writeTimeout
            eventsToMonitor).ReadTotalTimeoutMultiplier = 0 ∧
        (timeoutsFor timeoutMode readTimeout writeTimeout eventsToMonitor).ReadTotalTimeoutConstant
            = readTimeout) ∧
      (timeoutMode &&& TIMEOUT_SCANNER = 0 → timeoutMode &&& TIMEOUT_READ_SEMI_BLOCKING = 0 →
       timeoutMode &&& TIMEOUT_READ_BLOCKING = 0 →
        (timeoutsFor timeoutMode readTimeout writeTimeout eventsToMonitor).ReadIntervalTimeout
            = MAXDWORD ∧
        (timeoutsFor timeoutMode readTimeout writeTimeout
            eventsToMonitor).ReadTotalTimeoutMultiplier = 0 ∧
        (timeoutsFor timeoutMode readTimeout writeTimeout eventsToMonitor).ReadTotalTimeoutConstant
            = 0)) := by
  constructor
  · intro h
    simp [timeoutsFor, h]
  · intro h
    refine ⟨?_, ?_, ?_, ?_, ?_⟩
    · simp [timeoutsFor, h, apply_ite COMMTIMEOUTS.WriteTotalTimeoutConstant]
    · intro h1
      simp [timeoutsFor, h, h1]
    · intro h1 h2
      simp [timeoutsFor, h, h1, h2]
    · intro h1 h2 h3
      simp [timeoutsFor, h, h1, h2, h3]
    · intro h1 h2 h3
      simp [timeoutsFor, h, h1, h2, h3]

/-- Witness for C2: the data-received branch at a concrete input, and the
blocking branch at a concrete input. -/
theorem configTimeouts_descriptor_spec_witness :
    (timeoutsFor 0 0 7 LISTENING_EVENT_DATA_RECEIVED).ReadTotalTimeoutConstant = 1000 ∧
    (timeoutsFor 0 0 7 LISTENING_EVENT_DATA_RECEIVED).WriteTotalTimeoutConstant = 0 ∧
    (timeoutsFor TIMEOUT_READ_BLOCKING 250 7 0).ReadTotalTimeoutConstant = 250 ∧
    (timeoutsFor TIMEOUT_READ_BLOCKING 250 7 0).WriteTotalTimeoutConstant = 7 := by
  have h1 := (configTimeouts_descriptor_spec 0 0 7 LISTENING_EVENT_DATA_RECEIVED).1 (by decide)
  have h2 := (configTimeouts_descriptor_spec TIMEOUT_READ_BLOCKING 250 7 0).2 (by decide)
  exact ⟨h1.2.2.1, h1.2.2.2, (h2.2.2.2.1 (by decide) (by decide) (by decide)).2.2, h2.1⟩

/-- C3: the RTS line state derived by `configPort` is toggle whenever RS-485
mode is enabled regardless of the flow-control flags; otherwise handshake when
the RTS flow-control flag is set; otherwise explicit-enable when the
RTS-enabled preset is true, else explicit-disable — and this derived value is
exactly what the rebuilt `DCB` carries. -/
theorem configPort_rts_line_state :
    (∀ flowControl isRtsEnabled,
      RTSValueFor true flowControl isRtsEnabled = RTS_CONTROL_TOGGLE) ∧
    (∀ flowControl isRtsEnabled, flowControl &&& FLOW_CONTROL_RTS_ENABLED ≠ 0 →
      RTSValueFor false flowControl isRtsEnabled = RTS_CONTROL_HANDSHAKE) ∧
    (∀ flowControl, flowControl &&& FLOW_CONTROL_RTS_ENABLED = 0 →
      RTSValueFor false flowControl true = RTS_CONTROL_ENABLE ∧
      RTSValueFor false flowControl false = RTS_CONTROL_DISABLE) ∧
    (∀ old p, (buildDCB old p).fRtsControl =
      RTSValueFor p.rs485ModeEnabled p.flowControl p.isRtsEnabled) := by
  refine ⟨fun fc rts => by simp [RTSValueFor], ?_, ?_, fun old p => rfl⟩
  · intro fc rts h
    simp [RTSValueFor, Nat.pos_of_ne_zero h]
  · intro fc h
    simp [RTSValueFor, h]

/-- Witness for C3: with RS-485 enabled and the RTS flow-control flag also
requested, the derived state is toggle; with RS-485 off it is handshake. -/
theorem configPort_rts_line_state_witness :
    RTSValueFor true FLOW_CONTROL_RTS_ENABLED true = RTS_CONTROL_TOGGLE ∧
    RTSValueFor false FLOW_CONTROL_RTS_ENABLED true = RTS_CONTROL_HANDSHAKE ∧
    RTSValueFor false 0 true = RTS_CONTROL_ENABLE := by
  refine ⟨configPort_rts_line_state.1 FLOW_CONTROL_RTS_ENABLED true,
    configPort_rts_line_state.2.1 FLOW_CONTROL_RTS_ENABLED true (by decide),
    (configPort_rts_line_state.2.2.1 0 (by decide)).1⟩

/-- C4: close always returns the normal value 0 regardless of host-call
outcomes during teardown; afterwards the listener-running flag is false and
the handle is the invalid sentinel; a host error during the final handle
release is recorded in the error contexts (code 0 on a clean release) rather
than propagated. -/
theorem closePortNative_always_succeeds (o : CloseOracle) (dev : DeviceState)
    (q : serialPort) (g : Globals) :
    (closePortNative o dev q g).2.2.2 = 0 ∧
    (closePortNative o dev q g).2.1.eventListenerRunning = false ∧
    (closePortNative o dev q g).2.1.handle = WinHandle.invalid ∧
    (closePortNative o dev q g).2.1.errorLineNumber = 799 ∧
    (closePortNative o dev q g).2.1.errorNumber = (if o.closeHandleOk then 0 else o.err) ∧
    (closePortNative o dev q g).2.2.1 =
      ⟨799, if o.closeHandleOk then 0 else o.err⟩ := by
  simp [closePortNative]

/-- Counterexample for C5: with `SetupComm` and `GetCommState` succeeding but
`SetCommState` failing, `configPort` returns failure yet the device's receive
queue size has already been changed from 16 to 4096 — the queue sizes are not
applied by the same single call as the line configuration, and a failing
configure does not leave the whole previous device configuration in effect. -/
theorem configPort_failure_changes_queues :
    (configPort ⟨true, true, false, ⟨true, true, 0⟩, 5⟩ sampleParams sampleDev
      (samplePort "COM1" WinHandle.invalid) ⟨0, 0⟩).1 = false ∧
    (configPort ⟨true, true, false, ⟨true, true, 0⟩, 5⟩ sampleParams sampleDev
      (samplePort "COM1" WinHandle.invalid) ⟨0, 0⟩).2.1.rxQueueSize = 4096 ∧
    sampleDev.rxQueueSize = 16 := by
  refine ⟨rfl, rfl, rfl⟩

/-- C5 as amended: the line configuration is applied by its own single
`SetCommState` call, so whenever that call has not succeeded the previous
line configuration is left in effect, and a failing configure records the
error location and code in both error contexts; but the queue sizes are
applied by a separate, earlier `SetupComm` call, so a configure failing after
a successful `SetupComm` leaves the new queue sizes in effect, and a
configure failing in the subsequent timeout step leaves the new line
configuration in effect. -/
theorem configPort_failure_effects (o : ConfigOracle) (p : PortParams) (dev : DeviceState)
    (q : serialPort) (g : Globals) :
    (o.setupCommOk = false ∨ o.getCommStateOk = false ∨ o.setCommStateOk = false →
      (configPort o p dev q g).1 = false ∧
      (configPort o p dev q g).2.1.dcb = dev.dcb) ∧
    ((configPort o p dev q g).1 = false → o.setupCommOk = true →
      (configPort o p dev q g).2.1.rxQueueSize = p.receiveDeviceQueueSize ∧
      (configPort o p dev q g).2.1.txQueueSize = p.sendDeviceQueueSize) ∧
    ((configPort o p dev q g).1 = false → o.setupCommOk = true → o.getCommStateOk = true →
      o.setCommStateOk = true →
      (configPort o p dev q g).2.1.dcb = buildDCB dev.dcb p) ∧
    ((configPort o p dev q g).1 = false →
      ((configPort o p dev q g).2.2.1.errorLineNumber = 575 ∨
       (configPort o p dev q g).2.2.1.errorLineNumber = 606 ∨
       (configPort o p dev q g).2.2.1.errorLineNumber = 677) ∧
      ((configPort o p dev q g).2.2.1.errorNumber = o.err ∨
       (configPort o p dev q g).2.2.1.errorNumber = o.timeoutCalls.err) ∧
      (configPort o p dev q g).2.2.2 =
        ⟨(configPort o p dev q g).2.2.1.errorLineNumber,
         (configPort o p dev q g).2.2.1.errorNumber⟩) := by
  rcases o with ⟨su, gc, sc, ⟨st, sm, te⟩, e⟩
  cases su <;> cases gc <;> cases sc <;> cases st <;> cases sm <;>
    simp [configPort, configTimeouts, recErrPort, recErrGlobal]

/-- Witness for C5 amended: a configure whose `SetCommState` call fails at a
concrete input leaves the device line configuration unchanged. -/
theorem configPort_failure_effects_witness :
    (configPort ⟨true, true, false, ⟨true, true, 0⟩, 5⟩ sampleParams sampleDev
      (samplePort "COM2" WinHandle.invalid) ⟨0, 0⟩).1 = false ∧
    (configPort ⟨true, true, false, ⟨true, true, 0⟩, 5⟩ sampleParams sampleDev
      (samplePort "COM2" WinHandle.invalid) ⟨0, 0⟩).2.1.dcb = sampleDev.dcb := by
  have h := (configPort_failure_effects ⟨true, true, false, ⟨true, true, 0⟩, 5⟩ sampleParams
    sampleDev (samplePort "COM2" WinHandle.invalid) ⟨0, 0⟩).1 (Or.inr (Or.inr rfl))
  exact h

/-- C6: open on a path whose registry record already has a live handle fails:
it returns the failure sentinel, leaves the registry (and hence the live
handle) unchanged, and records the already-open condition (line 483, code 2)
in the process-wide error context. -/
theorem openPortNative_already_open (o : OpenOracle) (p : PortParams) (portName : String)
    (st : List serialPort) (dev : DeviceState) (g : Globals) (r : serialPort)
    (hr : r ∈ st) (hpath : r.portPath = portName) (hlive : r.handle ≠ WinHandle.invalid)
    (hnodup : (st.map (·.portPath)).Nodup) :
    openPortNative o p portName st dev g = (st, dev, ⟨483, 2⟩, false) := by
  cases hf : st.find? (fun q => decide (q.portPath = portName)) with
  | none =>
    exfalso
    have hnone := List.find?_eq_none.mp hf r hr
    simp [hpath] at hnone
  | some q =>
    have hq_mem : q ∈ st := List.mem_of_find?_eq_some hf
    have hq_pred := List.find?_some hf
    have hq_path : q.portPath = portName := by simpa using hq_pred
    have hqr : q = r :=
      List.inj_on_of_nodup_map hnodup hq_mem hr (hq_path.trans hpath.symm)
    have hlive' : q.handle ≠ WinHandle.invalid := by rw [hqr]; exact hlive
    simp only [openPortNative, hf]
    rw [if_pos hlive']
    rfl

/-- Witness for C6: a one-record registry whose record is open. -/
theorem openPortNative_already_open_witness :
    openPortNative ⟨false, false, false, 0, ⟨true, true, true, ⟨true, true, 0⟩, 0⟩, true, 0, 0⟩
      sampleParams "COM1" [samplePort "COM1" (WinHandle.live 3)] sampleDev ⟨0, 0⟩ =
      ([samplePort "COM1" (WinHandle.live 3)], sampleDev, ⟨483, 2⟩, false) :=
  openPortNative_already_open _ _ _ _ _ _ (samplePort "COM1" (WinHandle.live 3))
    (List.mem_singleton.mpr rfl) rfl (by decide) (by decide)

/-- Counterexample for C7: when the buffer reallocation fails, a read request
of 5 bytes against a port with buffer capacity 0 returns -1 and leaves the
capacity at 0, which is not at least the requested count. -/
theorem readBytes_realloc_failure_capacity :
    (readBytes ⟨false, 12, true, true, false, true, 0, 0⟩
        (samplePort "COM3" (WinHandle.live 3)) 5).2 = -1 ∧
    (readBytes ⟨false, 12, true, true, false, true, 0, 0⟩
        (samplePort "COM3" (WinHandle.live 3)) 5).1.readBufferLength = 0 ∧
    ¬(5 ≤ (readBytes ⟨false, 12, true, true, false, true, 0, 0⟩
        (samplePort "COM3" (WinHandle.live 3)) 5).1.readBufferLength) := by
  refine ⟨rfl, rfl, by decide⟩

/-- The asynchronous transfer never changes the buffer capacity. -/
theorem readBytesTransfer_readBufferLength (o : ReadOracle) (q : serialPort) :
    (readBytesTransfer o q).1.readBufferLength = q.readBufferLength := by
  unfold readBytesTransfer
  split <;> first
    | rfl
    | (split <;> first | rfl | (split <;> rfl))

/-- The buffer capacity after a read: grown to exactly the requested count
when the request exceeds it and the reallocation succeeds, unchanged
otherwise. -/
theorem readBytes_readBufferLength (o : ReadOracle) (q : serialPort) (n : Nat) :
    (readBytes o q n).1.readBufferLength =
      if q.readBufferLength < n ∧ o.reallocOk = true then n else q.readBufferLength := by
  by_cases hgt : q.readBufferLength < n
  · by_cases hro : o.reallocOk = true
    · simp [readBytes, hgt, hro, readBytesTransfer_readBufferLength]
    · simp [readBytes, hgt, hro]
  · simp [readBytes, Nat.not_lt.mp hgt, Nat.not_lt.mpr (Nat.not_lt.mp hgt),
      readBytesTransfer_readBufferLength, hgt]

/-- C7 as amended: when the requested count exceeds the capacity and the
reallocation succeeds, the buffer is grown so its capacity is at least the
requested count; when the reallocation fails the call fails with -1 and the
capacity is unchanged (so in that failing case the capacity may remain below
the request); the capacity never shrinks, on any single call and across any
sequence of calls. -/
theorem readBytes_buffer_growth (o : ReadOracle) (q : serialPort) (n : Nat) :
    q.readBufferLength ≤ (readBytes o q n).1.readBufferLength ∧
    (o.reallocOk = true → n ≤ (readBytes o q n).1.readBufferLength) ∧
    (o.reallocOk = false → q.readBufferLength < n →
      (readBytes o q n).2 = -1 ∧
      (readBytes o q n).1.readBufferLength = q.readBufferLength) ∧
    (∀ calls : List (ReadOracle × Nat),
      q.readBufferLength ≤
        (calls.foldl (fun s c => (readBytes c.1 s c.2).1) q).readBufferLength) := by
  have hmono : ∀ (c : ReadOracle × Nat) (s : serialPort),
      s.readBufferLength ≤ (readBytes c.1 s c.2).1.readBufferLength := by
    intro c s
    rw [readBytes_readBufferLength]
    split
    · rename_i h
      exact Nat.le_of_lt h.1
    · exact Nat.le_refl _
  refine ⟨hmono (o, n) q, ?_, ?_, ?_⟩
  · intro hro
    rw [readBytes_readBufferLength]
    split
    · exact Nat.le_refl _
    · rename_i h
      simp only [hro, and_true] at h
      exact Nat.not_lt.mp h
  · intro hro hgt
    constructor
    · simp [readBytes, hgt, hro]
    · rw [readBytes_readBufferLength]
      simp [hro]
  · intro calls
    induction calls generalizing q with
    | nil => exact Nat.le_refl _
    | cons c cs ih =>
      simp only [List.foldl_cons]
      exact Nat.le_trans (hmono c q) (ih _)

/-- Witness for C7 amended: a successful growth from capacity 0 to 5. -/
theorem readBytes_buffer_growth_witness :
    5 ≤ (readBytes ⟨true, 0, true, true, false, true, 5, 0⟩
        (samplePort "COM4" (WinHandle.live 2)) 5).1.readBufferLength :=
  (readBytes_buffer_growth ⟨true, 0, true, true, false, true, 5, 0⟩
    (samplePort "COM4" (WinHandle.live 2)) 5).2.1 rfl

/-- Counterexample for C9: a discovery pass over a device with no resolvable
bus, hub or port number yields the location string `0-0.0`, not `0-0-0`; and
a record created by open for a path unknown to the registry gets the
two-component location `0-0`, not a bus/hub/port triple. -/
theorem location_default_form_counterexample :
    (enumeratePorts ⟨[⟨some "COM3", none, none, none, none, none⟩], none⟩ []).map
      (·.portLocation) = ["0-0.0"] ∧
    "0-0.0" ≠ "0-0-0" ∧
    ((openPortNative ⟨false, false, false, 0, ⟨true, true, true, ⟨true, true, 0⟩, 0⟩, true, 0, 3⟩
        sampleParams "COM9" [] sampleDev ⟨0, 0⟩).1.map (·.portLocation)) = ["0-0"] ∧
    "0-0" ≠ "0-0-0" := by
  refine ⟨by decide, by decide, by decide, by decide⟩

/-- C9 as amended: records created by discovery carry a location derived from
the bus/hub/port triple with each unresolved component defaulted to 0 and
formatted in the `bus-hub.port` form, whose default form is `0-0.0`; records
created by open for a user-specified path not previously in the registry
carry the fixed two-component location `0-0`. -/
theorem portLocation_format (st : List serialPort) (d : HostDevice) (pn : String)
    (hpn : d.portName = some pn) (hlpt : containsSub pn "LPT" = false)
    (hfresh : ∀ r ∈ st, r.portPath ≠ pn) :
    (∃ r ∈ processSetupDevice st d, r.portPath = pn ∧
      r.portLocation = deriveLocation d.busNumber d.hubNumber d.portNumber) ∧
    deriveLocation none none none = "0-0.0" ∧
    (∀ B H P : Nat, deriveLocation (some B) (some H) (some P) =
      toString B ++ "-" ++ toString H ++ "." ++ toString P) ∧
    (∀ name, (userSpecifiedPort name).portLocation = "0-0") := by
  refine ⟨?_, by decide, fun B H P => rfl, fun name => rfl⟩
  have hany : st.any (fun q => decide (q.portPath = pn)) = false := by
    simp only [List.any_eq_false]
    intro x hx hc
    exact hfresh x hx (of_decide_eq_true hc)
  simp only [processSetupDevice, hpn, hlpt, hany]
  exact ⟨pushBackRecord pn (d.friendlyName.getD pn)
      (d.busReportedDescription.getD (d.friendlyName.getD pn))
      (deriveLocation d.busNumber d.hubNumber d.portNumber),
    List.mem_append_right _ (List.mem_singleton.mpr rfl), rfl, rfl⟩

/-- Witness for C9 amended: processing a fresh device with no location data
appends a record located at the default `0-0.0`. -/
theorem portLocation_format_witness :
    ∃ r ∈ processSetupDevice [] ⟨some "COM3", none, none, none, none, none⟩,
      r.portPath = "COM3" ∧ r.portLocation = deriveLocation none none none :=
  (portLocation_format [] ⟨some "COM3", none, none, none, none, none⟩ "COM3" rfl (by decide)
    (by simp)).1

/-- C10: in the event parse of `waitForEvent`, when the host signaled the
receive-character event but `ClearCommError` failed, the data-available
qualification compares the input-queue count field of the `COMSTAT` structure
even though the failed error-query call never wrote it — the read uses an
undefined value, and the returned event set depends on that indeterminate
stack content. -/
theorem waitForEvent_reads_undefined_queue_count :
    (waitForEvent
        ⟨true, true, false, false, false, EV_RXCHAR, false, 0, 0, true,
          false, false, false, false, 0, 7⟩
        (samplePort "COM5" (WinHandle.live 4))).2.2 = true ∧
    (waitForEvent
        ⟨true, true, false, false, false, EV_RXCHAR, false, 0, 0, true,
          false, false, false, false, 0, 7⟩
        (samplePort "COM5" (WinHandle.live 4))).2.1 = LISTENING_EVENT_DATA_AVAILABLE ∧
    (waitForEvent
        ⟨true, true, false, false, false, EV_RXCHAR, false, 0, 0, false,
          false, false, false, false, 0, 7⟩
        (samplePort "COM5" (WinHandle.live 4))).2.1 = LISTENING_EVENT_TIMED_OUT := by
  refine ⟨by decide, by decide, by decide⟩

/-! ## Mark-and-sweep lemmas for the discovery pass -/

/-- There is a record with path `pp` already marked present. -/
def keptAlive (pp : String) (l : List serialPort) : Prop :=
  ∃ r ∈ l, r.portPath = pp ∧ r.enumerated = true

/-- Every record with path `pp` is unmarked and closed. -/
def deadPath (pp : String) (l : List serialPort) : Prop :=
  ∀ r ∈ l, r.portPath = pp → r.enumerated = false ∧ r.handle = WinHandle.invalid

theorem updateFirst_mem (p : serialPort → Bool) (f : serialPort → serialPort)
    (l : List serialPort) (r : serialPort) (hr : r ∈ updateFirst p f l) :
    r ∈ l ∨ ∃ x ∈ l, p x = true ∧ r = f x := by
  induction l with
  | nil => simp [updateFirst] at hr
  | cons x xs ih =>
    simp only [updateFirst] at hr
    by_cases hx : p x = true
    · rw [if_pos hx] at hr
      rcases List.mem_cons.mp hr with h | h
      · exact Or.inr ⟨x, List.mem_cons_self x xs, hx, h⟩
      · exact Or.inl (List.mem_cons_of_mem x h)
    · rw [if_neg hx] at hr
      rcases List.mem_cons.mp hr with h | h
      · exact Or.inl (h ▸ List.mem_cons_self x xs)
      · rcases ih h with h1 | ⟨y, hy, hpy, hry⟩
        · exact Or.inl (List.mem_cons_of_mem x h1)
        · exact Or.inr ⟨y, List.mem_cons_of_mem x hy, hpy, hry⟩

theorem updateFirst_keptAlive (p : serialPort → Bool) (f : serialPort → serialPort)
    (l : List serialPort) (pp : String)
    (hpath : ∀ x, (f x).portPath = x.portPath)
    (henum : ∀ x, x.enumerated = true → (f x).enumerated = true)
    (h : keptAlive pp l) : keptAlive pp (updateFirst p f l) := by
  induction l with
  | nil =>
    obtain ⟨r, hr, -⟩ := h
    exact absurd hr (List.not_mem_nil r)
  | cons x xs ih =>
    obtain ⟨r, hr, hrp, hre⟩ := h
    simp only [updateFirst]
    by_cases hx : p x = true
    · rw [if_pos hx]
      rcases List.mem_cons.mp hr with rfl | hmem
      · exact ⟨f r, List.mem_cons_self _ _, (hpath r).trans hrp, henum r hre⟩
      · exact ⟨r, List.mem_cons_of_mem _ hmem, hrp, hre⟩
    · rw [if_neg hx]
      rcases List.mem_cons.mp hr with rfl | hmem
      · exact ⟨r, List.mem_cons_self _ _, hrp, hre⟩
      · obtain ⟨r', hr', h1, h2⟩ := ih ⟨r, hmem, hrp, hre⟩
        exact ⟨r', List.mem_cons_of_mem _ hr', h1, h2⟩

theorem updateFirst_deadPath (p : serialPort → Bool) (f : serialPort → serialPort)
    (l : List serialPort) (pp : String) (hd : deadPath pp l)
    (hp : ∀ x ∈ l, p x = true → (f x).portPath ≠ pp) :
    deadPath pp (updateFirst p f l) := by
  intro r hr hrp
  rcases updateFirst_mem p f l r hr with h | ⟨x, hx, hpx, rfl⟩
  · exact hd r h hrp
  · exact absurd hrp (hp x hx hpx)

theorem processSetupDevice_keptAlive (st : List serialPort) (d : HostDevice) (pp : String)
    (h : keptAlive pp st) : keptAlive pp (processSetupDevice st d) := by
  rcases hd : d.portName with _ | com
  · simpa [processSetupDevice, hd] using h
  · by_cases hlpt : containsSub com "LPT" = true
    · simpa [processSetupDevice, hd, hlpt] using h
    · by_cases hany :
        st.any (fun q => decide (q.portPath = com)) = true
      · simp only [processSetupDevice, hd, hlpt, hany, Bool.false_eq_true, if_false, if_true]
        exact updateFirst_keptAlive _ _ st pp (fun x => rfl) (fun x _ => rfl) h
      · simp only [processSetupDevice, hd, hlpt, eq_false_of_ne_true hany, Bool.false_eq_true,
          if_false]
        obtain ⟨r, hr, h1, h2⟩ := h
        exact ⟨r, List.mem_append_left _ hr, h1, h2⟩

theorem processSetupDevice_deadPath (st : List serialPort) (d : HostDevice) (pp : String)
    (hd : deadPath pp st) (hne : d.portName ≠ some pp) :
    deadPath pp (processSetupDevice st d) := by
  rcases hdn : d.portName with _ | com
  · simpa [processSetupDevice, hdn] using hd
  · have hcom : com ≠ pp := fun hc => hne (by rw [hdn, hc])
    by_cases hlpt : containsSub com "LPT" = true
    · simpa [processSetupDevice, hdn, hlpt] using hd
    · by_cases hany :
        st.any (fun q => decide (q.portPath = com)) = true
      · simp only [processSetupDevice, hdn, hlpt, hany, Bool.false_eq_true, if_false, if_true]
        refine updateFirst_deadPath _ _ st pp hd ?_
        intro x _ hx
        have : x.portPath = com := of_decide_eq_true hx
        simpa [this] using hcom
      · simp only [processSetupDevice, hdn, hlpt, eq_false_of_ne_true hany, Bool.false_eq_true,
          if_false]
        intro r hr hrp
        rcases List.mem_append.mp hr with h | h
        · exact hd r h hrp
        · rw [List.mem_singleton.mp h] at hrp
          exact absurd hrp hcom

theorem ftdiMarkBySerial_keptAlive (d : FtdiDevice) (st : List serialPort) (pp : String)
    (h : keptAlive pp st) : keptAlive pp (ftdiMarkBySerial d st) := by
  unfold ftdiMarkBySerial
  split
  · exact updateFirst_keptAlive _ _ st pp (fun x => rfl) (fun x _ => rfl) h
  · exact h

theorem ftdiMarkBySerial_deadPath (d : FtdiDevice) (st : List serialPort) (pp : String)
    (hd : deadPath pp st) : deadPath pp (ftdiMarkBySerial d st) := by
  unfold ftdiMarkBySerial
  split
  · refine updateFirst_deadPath _ _ st pp hd ?_
    intro x hx hpx hxp
    have hxpath : x.portPath = pp := hxp
    have hxlive : x.handle ≠ WinHandle.invalid :=
      of_decide_eq_true (Bool.and_elim_right hpx)
    exact hxlive (hd x hx hxpath).2
  · exact hd

theorem ftdiPatchByPath_keptAlive (d : FtdiDevice) (st : List serialPort) (pp : String)
    (h : keptAlive pp st) : keptAlive pp (ftdiPatchByPath d st) := by
  unfold ftdiPatchByPath
  rcases d.resolvedPath with _ | com
  · exact h
  · exact updateFirst_keptAlive _ _ st pp (fun x => rfl) (fun x _ => rfl) h

theorem ftdiPatchByPath_deadPath (d : FtdiDevice) (st : List serialPort) (pp : String)
    (hd : deadPath pp st) (hne : d.resolvedPath ≠ some pp) :
    deadPath pp (ftdiPatchByPath d st) := by
  unfold ftdiPatchByPath
  rcases hr : d.resolvedPath with _ | com
  · exact hd
  · have hcom : com ≠ pp := fun hc => hne (by rw [hr, hc])
    refine updateFirst_deadPath _ _ st pp hd ?_
    intro x _ hpx hxp
    have : x.portPath = com := of_decide_eq_true (Bool.and_elim_left hpx)
    exact hcom (this ▸ hxp)

theorem processFtdiDevice_keptAlive (st : List serialPort) (d : FtdiDevice) (pp : String)
    (h : keptAlive pp st) : keptAlive pp (processFtdiDevice st d) := by
  simp only [processFtdiDevice]
  split
  · exact ftdiMarkBySerial_keptAlive d st pp h
  · exact ftdiPatchByPath_keptAlive d _ pp (ftdiMarkBySerial_keptAlive d st pp h)

theorem processFtdiDevice_deadPath (st : List serialPort) (d : FtdiDevice) (pp : String)
    (hd : deadPath pp st) (hne : d.resolvedPath ≠ some pp) :
    deadPath pp (processFtdiDevice st d) := by
  simp only [processFtdiDevice]
  split
  · exact ftdiMarkBySerial_deadPath d st pp hd
  · exact ftdiPatchByPath_deadPath d _ pp (ftdiMarkBySerial_deadPath d st pp hd) hne

theorem foldl_setup_keptAlive (devices : List HostDevice) (st : List serialPort) (pp : String)
    (h : keptAlive pp st) : keptAlive pp (devices.foldl processSetupDevice st) := by
  induction devices generalizing st with
  | nil => exact h
  | cons d ds ih => exact ih _ (processSetupDevice_keptAlive st d pp h)

theorem foldl_setup_deadPath (devices : List HostDevice) (st : List serialPort) (pp : String)
    (hd : deadPath pp st) (hne : ∀ d ∈ devices, d.portName ≠ some pp) :
    deadPath pp (devices.foldl processSetupDevice st) := by
  induction devices generalizing st with
  | nil => exact hd
  | cons d ds ih =>
    exact ih _ (processSetupDevice_deadPath st d pp hd (hne d (List.mem_cons_self d ds)))
      (fun x hx => hne x (List.mem_cons_of_mem d hx))

theorem foldl_ftdi_keptAlive (ds : List FtdiDevice) (st : List serialPort) (pp : String)
    (h : keptAlive pp st) : keptAlive pp (ds.foldl processFtdiDevice st) := by
  induction ds generalizing st with
  | nil => exact h
  | cons d dd ih => exact ih _ (processFtdiDevice_keptAlive st d pp h)

theorem foldl_ftdi_deadPath (ds : List FtdiDevice) (st : List serialPort) (pp : String)
    (hd : deadPath pp st) (hne : ∀ d ∈ ds, d.resolvedPath ≠ some pp) :
    deadPath pp (ds.foldl processFtdiDevice st) := by
  induction ds generalizing st with
  | nil => exact hd
  | cons d dd ih =>
    exact ih _ (processFtdiDevice_deadPath st d pp hd (hne d (List.mem_cons_self d dd)))
      (fun x hx => hne x (List.mem_cons_of_mem d hx))

/-- C1: after one discovery pass, a record whose handle was live before the
pass is retained (its path is still in the registry) even if no host device
reported it; and a record whose handle was the invalid sentinel and which no
setup-class device nor FTDI path resolution matched is removed (no record
with its path survives the sweep). -/
theorem enumeratePorts_mark_and_sweep (host : HostSnapshot) (st : List serialPort)
    (r : serialPort) (hr : r ∈ st) (hnodup : (st.map (·.portPath)).Nodup) :
    (r.handle ≠ WinHandle.invalid →
      ∃ q ∈ enumeratePorts host st, q.portPath = r.portPath) ∧
    (r.handle = WinHandle.invalid →
      (∀ d ∈ host.devices, d.portName ≠ some r.portPath) →
      (∀ ds, host.ftdi = some ds → ∀ d ∈ ds, d.resolvedPath ≠ some r.portPath) →
      ∀ q ∈ enumeratePorts host st, q.portPath ≠ r.portPath) := by
  constructor
  · intro hlive
    have hmark : keptAlive r.portPath
        (st.map fun q => { q with enumerated := decide (q.handle ≠ WinHandle.invalid) }) := by
      refine ⟨{ r with enumerated := decide (r.handle ≠ WinHandle.invalid) },
        List.mem_map_of_mem _ hr, rfl, by simp [hlive]⟩
    have h1 := foldl_setup_keptAlive host.devices _ r.portPath hmark
    have h2 : keptAlive r.portPath
        (match host.ftdi with
         | some ds => ds.foldl processFtdiDevice (host.devices.foldl processSetupDevice
             (st.map fun q => { q with enumerated := decide (q.handle ≠ WinHandle.invalid) }))
         | none => host.devices.foldl processSetupDevice
             (st.map fun q => { q with enumerated := decide (q.handle ≠ WinHandle.invalid) })) := by
      rcases host.ftdi with _ | ds
      · exact h1
      · exact foldl_ftdi_keptAlive ds _ r.portPath h1
    obtain ⟨q, hq, hqp, hqe⟩ := h2
    exact ⟨q, List.mem_filter.mpr ⟨hq, hqe⟩, hqp⟩
  · intro hdead hsetup hftdi
    have hmark : deadPath r.portPath
        (st.map fun q => { q with enumerated := decide (q.handle ≠ WinHandle.invalid) }) := by
      intro q hq hqp
      obtain ⟨x, hx, rfl⟩ := List.mem_map.mp hq
      have hxr : x = r :=
        List.inj_on_of_nodup_map hnodup hx hr hqp
      subst hxr
      simp [hdead]
    have h1 := foldl_setup_deadPath host.devices _ r.portPath hmark hsetup
    have h2 : deadPath r.portPath
        (match host.ftdi with
         | some ds => ds.foldl processFtdiDevice (host.devices.foldl processSetupDevice
             (st.map fun q => { q with enumerated := decide (q.handle ≠ WinHandle.invalid) }))
         | none => host.devices.foldl processSetupDevice
             (st.map fun q => { q with enumerated := decide (q.handle ≠ WinHandle.invalid) })) := by
      rcases hh : host.ftdi with _ | ds
      · exact h1
      · exact foldl_ftdi_deadPath ds _ r.portPath h1 (hftdi ds hh)
    intro q hq hqp
    have hmf := List.mem_filter.mp hq
    have := h2 q hmf.1 hqp
    rw [this.1] at hmf
    exact Bool.false_ne_true hmf.2

/-- Witness for C1: a registry with one open and one closed record, an empty
host report — the open record survives the pass, the closed one is swept. -/
theorem enumeratePorts_mark_and_sweep_witness :
    (∃ q ∈ enumeratePorts ⟨[], none⟩
        [samplePort "COM1" (WinHandle.live 7), samplePort "COM2" WinHandle.invalid],
      q.portPath = "COM1") ∧
    (∀ q ∈ enumeratePorts ⟨[], none⟩
        [samplePort "COM1" (WinHandle.live 7), samplePort "COM2" WinHandle.invalid],
      q.portPath ≠ "COM2") := by
  constructor
  · exact (enumeratePorts_mark_and_sweep ⟨[], none⟩
      [samplePort "COM1" (WinHandle.live 7), samplePort "COM2" WinHandle.invalid]
      (samplePort "COM1" (WinHandle.live 7)) (by simp) (by decide)).1 (by decide)
  · exact (enumeratePorts_mark_and_sweep ⟨[], none⟩
      [samplePort "COM1" (WinHandle.live 7), samplePort "COM2" WinHandle.invalid]
      (samplePort "COM2" WinHandle.invalid) (by simp) (by decide)).2 rfl
      (by simp) (by simp)

/-- Counterexample for C8: a close whose teardown succeeds (so the operation
succeeds from the caller's perspective) still overwrites both the port's and
the process-wide last-error pairs — from (100, 55) to (799, 0). -/
theorem close_success_overwrites_last_error :
    (runOp (.closeOp ⟨true, true, true, 0⟩)
      ⟨sampleDev, samplePort "COM6" (WinHandle.live 9), ⟨100, 55⟩⟩).2 = true ∧
    (runOp (.closeOp ⟨true, true, true, 0⟩)
      ⟨sampleDev, samplePort "COM6" (WinHandle.live 9), ⟨100, 55⟩⟩).1.port.errorLineNumber ≠
      (samplePort "COM6" (WinHandle.live 9)).errorLineNumber ∧
    (runOp (.closeOp ⟨true, true, true, 0⟩)
      ⟨sampleDev, samplePort "COM6" (WinHandle.live 9), ⟨100, 55⟩⟩).1.port.errorNumber ≠
      (samplePort "COM6" (WinHandle.live 9)).errorNumber ∧
    (runOp (.closeOp ⟨true, true, true, 0⟩)
      ⟨sampleDev, samplePort "COM6" (WinHandle.live 9), ⟨100, 55⟩⟩).1.globals ≠
      (⟨100, 55⟩ : Globals) := by
  refine ⟨rfl, by decide, by decide, by decide⟩

/-- The last-error pairs a state stores, untouched. -/
def errUnchanged (s s' : EngineState) : Prop :=
  s'.port.errorLineNumber = s.port.errorLineNumber ∧
  s'.port.errorNumber = s.port.errorNumber ∧
  s'.globals = s.globals

/-- A transfer that reports a non-negative count left the port record
untouched and returned the host's transferred count. -/
theorem readBytesTransfer_success (o : ReadOracle) (q : serialPort)
    (h : 0 ≤ (readBytesTransfer o q).2) :
    readBytesTransfer o q = (q, Int.ofNat o.numBytesRead) := by
  rcases o with ⟨ro, ev, ceo, rfo, pe, oo, nb, e⟩
  cases ceo <;> cases rfo <;> cases pe <;> cases oo <;>
    simp_all [readBytesTransfer, recErrPort]

/-- The transfer's reported count, and on failure its recorded error pair,
do not depend on the port record it is given. -/
theorem readBytesTransfer_indep (o : ReadOracle) (q q' : serialPort) :
    (readBytesTransfer o q).2 = (readBytesTransfer o q').2 ∧
    ((readBytesTransfer o q).2 < 0 →
      (readBytesTransfer o q).1.errorLineNumber = (readBytesTransfer o q').1.errorLineNumber ∧
      (readBytesTransfer o q).1.errorNumber = (readBytesTransfer o q').1.errorNumber) := by
  rcases o with ⟨ro, ev, ceo, rfo, pe, oo, nb, e⟩
  cases ceo <;> cases rfo <;> cases pe <;> cases oo <;>
    simp [readBytesTransfer, recErrPort]

/-- The read's reported count, and on failure its recorded error pair, do not
depend on the given port record beyond its buffer capacity. -/
theorem readBytes_indep (o : ReadOracle) (n : Nat) (q q' : serialPort)
    (hlen : q'.readBufferLength = q.readBufferLength) :
    (readBytes o q n).2 = (readBytes o q' n).2 ∧
    ((readBytes o q n).2 < 0 →
      (readBytes o q n).1.errorLineNumber = (readBytes o q' n).1.errorLineNumber ∧
      (readBytes o q n).1.errorNumber = (readBytes o q' n).1.errorNumber) := by
  by_cases hgt : n > q.readBufferLength
  · have hgt' : n > q'.readBufferLength := by rw [hlen]; exact hgt
    by_cases hro : o.reallocOk = true
    · have e1 : readBytes o q n =
          readBytesTransfer o { q with errorLineNumber := 841, readBufferLength := n } := by
        unfold readBytes
        rw [if_pos hgt, if_pos hro]
      have e2 : readBytes o q' n =
          readBytesTransfer o { q' with errorLineNumber := 841, readBufferLength := n } := by
        unfold readBytes
        rw [if_pos hgt', if_pos hro]
      rw [e1, e2]
      exact readBytesTransfer_indep o _ _
    · have e1 : readBytes o q n =
          ({ q with errorLineNumber := 841, errorNumber := o.errnoVal }, -1) := by
        unfold readBytes
        rw [if_pos hgt, if_neg hro]
      have e2 : readBytes o q' n =
          ({ q' with errorLineNumber := 841, errorNumber := o.errnoVal }, -1) := by
        unfold readBytes
        rw [if_pos hgt', if_neg hro]
      rw [e1, e2]
      exact ⟨rfl, fun _ => ⟨rfl, rfl⟩⟩
  · have hgt' : ¬(n > q'.readBufferLength) := by rw [hlen]; exact hgt
    have e1 : readBytes o q n = readBytesTransfer o q := by
      unfold readBytes
      rw [if_neg hgt]
    have e2 : readBytes o q' n = readBytesTransfer o q' := by
      unfold readBytes
      rw [if_neg hgt']
    rw [e1, e2]
    exact readBytesTransfer_indep o _ _

/-- C8 as amended: a failing operation overwrites the affected last-error
pair (the recorded pair is independent of what was stored before, as is the
operation's success indicator); a successful operation leaves both pairs
unchanged, with two exceptions forced by the code: close always overwrites
both pairs (with code 0 on a clean teardown), and a read that grows the
buffer overwrites the port's error location even on success (its error code
and the process-wide pair are still preserved). -/
theorem lastError_discipline (s : EngineState) :
    (∀ o p, (runOp (.cfgPort o p) s).2 = true → errUnchanged s (runOp (.cfgPort o p) s).1) ∧
    (∀ o m rt wt ev, (runOp (.cfgTimeouts o m rt wt ev) s).2 = true →
      errUnchanged s (runOp (.cfgTimeouts o m rt wt ev) s).1) ∧
    (∀ ok e, (runOp (.flushOp ok e) s).2 = true → errUnchanged s (runOp (.flushOp ok e) s).1) ∧
    (∀ o n, (runOp (.readOp o n) s).2 = true → n ≤ s.port.readBufferLength →
      errUnchanged s (runOp (.readOp o n) s).1) ∧
    (∀ o n, (runOp (.readOp o n) s).2 = true →
      (runOp (.readOp o n) s).1.port.errorNumber = s.port.errorNumber ∧
      (runOp (.readOp o n) s).1.globals = s.globals) ∧
    (∀ o, (runOp (.closeOp o) s).1.port.errorLineNumber = 799 ∧
      (runOp (.closeOp o) s).1.port.errorNumber = (if o.closeHandleOk then 0 else o.err) ∧
      (runOp (.closeOp o) s).1.globals = ⟨799, if o.closeHandleOk then 0 else o.err⟩) ∧
    (∀ op, (runOp op s).2 = (runOp op (clearErrState s)).2) ∧
    (∀ op, (runOp op s).2 = false →
      (runOp op s).1.port.errorLineNumber =
        (runOp op (clearErrState s)).1.port.errorLineNumber ∧
      (runOp op s).1.port.errorNumber = (runOp op (clearErrState s)).1.port.errorNumber) := by
  refine ⟨?_, ?_, ?_, ?_, ?_, ?_, ?_, ?_⟩
  · intro o p
    rcases o with ⟨su, gc, sc, ⟨sct, scm, te⟩, e⟩
    cases su <;> cases gc <;> cases sc <;> cases sct <;> cases scm <;>
      simp [runOp, configPort, configTimeouts, errUnchanged, recErrPort, recErrGlobal]
  · intro o m rt wt ev
    rcases o with ⟨sct, scm, te⟩
    cases sct <;> cases scm <;>
      simp [runOp, configTimeouts, errUnchanged, recErrPort, recErrGlobal]
  · intro ok e
    cases ok <;> simp [runOp, flushRxTxBuffers, errUnchanged, recErrPort]
  · intro o n hok hle
    have hngt : ¬(n > s.port.readBufferLength) := Nat.not_lt.mpr hle
    have he : readBytes o s.port n = readBytesTransfer o s.port := by
      unfold readBytes
      rw [if_neg hngt]
    simp only [runOp] at hok ⊢
    rw [he] at hok ⊢
    have hpos : 0 ≤ (readBytesTransfer o s.port).2 := of_decide_eq_true hok
    rw [readBytesTransfer_success o s.port hpos]
    exact ⟨rfl, rfl, rfl⟩
  · intro o n hok
    simp only [runOp] at hok ⊢
    by_cases hgt : n > s.port.readBufferLength
    · by_cases hro : o.reallocOk = true
      · have he : readBytes o s.port n =
            readBytesTransfer o { s.port with errorLineNumber := 841, readBufferLength := n } := by
          unfold readBytes
          rw [if_pos hgt, if_pos hro]
        rw [he] at hok ⊢
        have hpos := of_decide_eq_true hok
        rw [readBytesTransfer_success _ _ hpos]
        exact ⟨rfl, trivial⟩
      · have he : readBytes o s.port n =
            ({ s.port with errorLineNumber := 841, errorNumber := o.errnoVal }, -1) := by
          unfold readBytes
          rw [if_pos hgt, if_neg hro]
        rw [he] at hok
        simp at hok
    · have he : readBytes o s.port n = readBytesTransfer o s.port := by
        unfold readBytes
        rw [if_neg hgt]
      rw [he] at hok ⊢
      have hpos := of_decide_eq_true hok
      rw [readBytesTransfer_success o s.port hpos]
      exact ⟨rfl, trivial⟩
  · intro o
    simp [runOp, closePortNative]
  · intro op
    rcases op with ⟨o, p⟩ | ⟨o, m, rt, wt, ev⟩ | ⟨ok, e⟩ | ⟨o, n⟩ | o
    · rcases o with ⟨su, gc, sc, ⟨sct, scm, te⟩, e⟩
      cases su <;> cases gc <;> cases sc <;> cases sct <;> cases scm <;>
        simp [runOp, configPort, configTimeouts, clearErrState, recErrPort, recErrGlobal]
    · rcases o with ⟨sct, scm, te⟩
      cases sct <;> cases scm <;>
        simp [runOp, configTimeouts, clearErrState, recErrPort, recErrGlobal]
    · cases ok <;> simp [runOp, flushRxTxBuffers, clearErrState, recErrPort]
    · simp only [runOp]
      rw [(readBytes_indep o n s.port (clearErrState s).port rfl).1]
    · simp [runOp, closePortNative, clearErrState]
  · intro op
    rcases op with ⟨o, p⟩ | ⟨o, m, rt, wt, ev⟩ | ⟨ok, e⟩ | ⟨o, n⟩ | o
    · rcases o with ⟨su, gc, sc, ⟨sct, scm, te⟩, e⟩
      cases su <;> cases gc <;> cases sc <;> cases sct <;> cases scm <;>
        simp [runOp, configPort, configTimeouts, clearErrState, recErrPort, recErrGlobal]
    · rcases o with ⟨sct, scm, te⟩
      cases sct <;> cases scm <;>
        simp [runOp, configTimeouts, clearErrState, recErrPort, recErrGlobal]
    · cases ok <;> simp [runOp, flushRxTxBuffers, clearErrState, recErrPort]
    · intro hfail
      simp only [runOp] at hfail ⊢
      have hneg : (readBytes o s.port n).2 < 0 :=
        Int.not_le.mp (of_decide_eq_false hfail)
      exact (readBytes_indep o n s.port (clearErrState s).port rfl).2 hneg
    · intro hfail
      simp [runOp] at hfail

/-- Witness for C8 amended: a successful flush at a concrete state leaves
both last-error pairs untouched. -/
theorem lastError_discipline_witness :
    errUnchanged ⟨sampleDev, samplePort "COM7" (WinHandle.live 1), ⟨100, 55⟩⟩
      (runOp (.flushOp true 0)
        ⟨sampleDev, samplePort "COM7" (WinHandle.live 1), ⟨100, 55⟩⟩).1 :=
  (lastError_discipline ⟨sampleDev, samplePort "COM7" (WinHandle.live 1), ⟨100, 55⟩⟩).2.2.1
    true 0 rfl

end JSerialComm
